import Mathlib

/-!
Verification of `src/ai/backend/gateway/manager.py` (Backend.AI manager gateway).

The Python module is embedded shallowly: each handler becomes a pure Lean
function over explicit state (the agents table, the etcd announcement key,
probe outcomes, watch-stream terminations), returning an `Except` value for
the HTTP outcome together with an explicit effect trace where ordering or
side effects matter.  Machine behaviour of collaborators is modelled only
where the handlers rely on it: the SQL transaction context manager
(`async with conn.begin()`) commits on normal exit and rolls back when the
body raises, `asyncio.gather` re-raises the first exception of its awaited
jobs, and the aiojobs scheduler admits at most `limit` running jobs.
-/

namespace GatewayManager

/-- Modelled from the spec: `ManagerStatus` (imported from the package root,
not under `src/`) is an enumerated value with at least `RUNNING` and
`FROZEN`. -/
inductive ManagerStatus
  | RUNNING
  | FROZEN
deriving DecidableEq, Repr

/-- The exception classes raised by the module (from `.exceptions`), plus the
uncaught `asyncio.TimeoutError` that `async_timeout` raises on expiry. -/
inductive ManagerError
  | instanceNotFound
  | invalidAPIParameters
  | genericBadRequest
  | serverFrozen
  | serviceUnavailable
  | timeoutError
deriving DecidableEq, Repr

/-- Outcome of the `server_status_required` guard around a handler: either the
wrapped handler runs, or a specific exception is raised instead. -/
inductive GateDecision
  | allow
  | reject (e : ManagerError)
deriving DecidableEq, Repr

/-- `server_status_required(allowed_status)` (manager.py:53-69): reads the
current manager status; if it is not in `allowed_status`, raises
`ServerFrozen` when the status is `FROZEN` and `ServiceUnavailable`
otherwise; if it is allowed, the wrapped handler is invoked. -/
def server_status_required (allowed_status : List ManagerStatus)
    (status : ManagerStatus) : GateDecision :=
  if status ∈ allowed_status then
    GateDecision.allow
  else if status = ManagerStatus.FROZEN then
    GateDecision.reject ManagerError.serverFrozen
  else
    GateDecision.reject ManagerError.serviceUnavailable

/-- `READ_ALLOWED` (manager.py:72). -/
def READ_ALLOWED : List ManagerStatus := [ManagerStatus.RUNNING, ManagerStatus.FROZEN]

/-- `ALL_ALLOWED` (manager.py:73). -/
def ALL_ALLOWED : List ManagerStatus := [ManagerStatus.RUNNING]

/-- Response body of `get_announcement` (manager.py:168-174). -/
structure AnnouncementInfo where
  enabled : Bool
  message : String
deriving DecidableEq, Repr

/-- `get_announcement` (manager.py:168-174): reads etcd key
`manager/announcement`; a missing value yields `enabled=false` with an empty
message, a present value yields `enabled=true` with the value as message.
The etcd key is modelled as `Option String`. -/
def get_announcement (etcdAnnouncement : Option String) : AnnouncementInfo :=
  match etcdAnnouncement with
  | none => { enabled := false, message := "" }
  | some data => { enabled := true, message := data }

/-- `update_announcement` (manager.py:184-191): when `enabled` is true, an
absent or empty message is rejected with `InvalidAPIParameters`, otherwise
the message is stored; when `enabled` is false the key is deleted.  Returns
the new etcd value and the HTTP status of the response. -/
def update_announcement (etcdAnnouncement : Option String)
    (enabled : Bool) (message : Option String) :
    Option String × Except ManagerError Nat :=
  if enabled then
    match message with
    | none => (etcdAnnouncement, Except.error ManagerError.invalidAPIParameters)
    | some m =>
        if m = "" then
          (etcdAnnouncement, Except.error ManagerError.invalidAPIParameters)
        else
          (some m, Except.ok 204)
  else
    (none, Except.ok 204)

/-- `SchedulerOps` (manager.py:48-50). -/
inductive SchedulerOps
  | INCLUDE_AGENTS
  | EXCLUDE_AGENTS
deriving DecidableEq, Repr

/-- One row of the `agents` table, restricted to the columns
`perform_scheduler_ops` touches (`id` and `schedulable`). -/
structure AgentRow where
  id : String
  schedulable : Bool
deriving DecidableEq, Repr

/-- The UPDATE issued inside the transaction (manager.py:218-223):
`agents.update().values(schedulable=...).where(agents.c.id.in_(args))`.
Returns the table after the update together with `result.rowcount`, the
number of rows matched by the WHERE clause. -/
def execUpdateSchedulable (db : List AgentRow) (args : List String)
    (value : Bool) : List AgentRow × Nat :=
  (db.map fun r => if r.id ∈ args then { r with schedulable := value } else r,
   (db.filter fun r => r.id ∈ args).length)

/-- Observable effects of one `perform_scheduler_ops` call, in order:
the database transaction either commits or rolls back, and afterwards the
handler may publish an event on `event_dispatcher`. -/
inductive SchedEffect
  | commit
  | rollback
  | produceEvent (name : String)
deriving DecidableEq, Repr

/-- Result of one `perform_scheduler_ops` call: the agents table after the
call, the ordered effect trace, and the HTTP outcome. -/
structure SchedOpOutcome where
  db : List AgentRow
  trace : List SchedEffect
  response : Except ManagerError Nat
deriving Repr

/-- `perform_scheduler_ops` (manager.py:207-231), after arg validation: sets
`schedulable` to true for include-agents and false for exclude-agents on the
rows whose id is in `args`, inside `async with conn.begin()`.  The
`rowcount < len(args)` check and the `InstanceNotFound` raise sit inside
that transaction context, so the raise makes the context manager roll the
update back; on normal exit the transaction commits and, for include-agents
only, a single `do_schedule` event is produced afterwards. -/
def perform_scheduler_ops (db : List AgentRow) (op : SchedulerOps)
    (args : List String) : SchedOpOutcome :=
  let schedulable : Bool := op = SchedulerOps.INCLUDE_AGENTS
  let step := execUpdateSchedulable db args schedulable
  if step.2 < args.length then
    { db := db
      trace := [SchedEffect.rollback]
      response := Except.error ManagerError.instanceNotFound }
  else if schedulable then
    { db := step.1
      trace := [SchedEffect.commit, SchedEffect.produceEvent ("do_schedule")]
      response := Except.ok 204 }
  else
    { db := step.1
      trace := [SchedEffect.commit]
      response := Except.ok 204 }

/-- The events published during a scheduler-ops call, in order. -/
def SchedOpOutcome.events (o : SchedOpOutcome) : List String :=
  o.trace.filterMap fun e =>
    match e with
    | SchedEffect.produceEvent n => some n
    | _ => none

/-- Observable effects of one `update_manager_status` call, in order. -/
inductive StatusEffect
  | killAllSessions
  | writeStatus (s : ManagerStatus)
deriving DecidableEq, Repr

/-- `update_manager_status` (manager.py:148-164), after parameter
validation: when `force_kill` is set, `registry.kill_all_sessions()` is
awaited first; then the new status is written through
`config_server.update_manager_status`, and 204 is returned. -/
def update_manager_status (status : ManagerStatus) (force_kill : Bool) :
    List StatusEffect × Except ManagerError Nat :=
  ((if force_kill then [StatusEffect.killAllSessions] else []) ++
    [StatusEffect.writeStatus status],
   Except.ok 204)

/-- Whether a `StatusEffect` is a write of the status value. -/
def StatusEffect.isWrite (e : StatusEffect) : Bool :=
  match e with
  | StatusEffect.writeStatus _ => true
  | _ => false

/-- One event delivered by `config_server.watch_manager_status()`; the loop
only inspects whether `ev.event == 'put'`. -/
inductive WatchEvent
  | put
  | other
deriving DecidableEq, Repr

/-- How the watch subscription stream terminates after delivering its
events: either with `asyncio.CancelledError` or with some other
exception.  (The underlying etcd watch generator is unbounded; it ends only
by an exception reaching the `async for`.) -/
inductive WatchTermination
  | cancelled
  | failed (e : ManagerError)
deriving DecidableEq, Repr

/-- Cache operations the watch loop performs on each `put` event
(manager.py:89-93): clear the memoized status, then re-fetch it. -/
inductive CacheEffect
  | cacheClear
  | refetchStatus
deriving DecidableEq, Repr

/-- `detect_status_update` (manager.py:85-95): for every delivered `put`
event the loop clears and re-fetches the cached manager status; when the
subscription terminates, `asyncio.CancelledError` is caught by the
`except` clause and the coroutine returns normally, while any other
exception escapes the `try` and propagates. -/
def detect_status_update (events : List WatchEvent)
    (term : WatchTermination) : List CacheEffect × Except ManagerError Unit :=
  (events.foldr
    (fun ev acc =>
      match ev with
      | WatchEvent.put => CacheEffect.cacheClear :: CacheEffect.refetchStatus :: acc
      | WatchEvent.other => acc)
    [],
   match term with
   | WatchTermination.cancelled => Except.ok ()
   | WatchTermination.failed e => Except.error e)

/-- Validated query parameters of `health_check` (manager.py:234-239). -/
structure HealthParams where
  agent_ids : List String
  with_all_agents : Bool
deriving Repr

/-- What happens when the probe of one agent's watcher endpoint runs:
`get_watcher_info` may yield nothing, the GET may exceed the 10-second
`async_timeout` deadline, or it returns an HTTP response with a status code
and (for 200) a JSON body. -/
inductive ProbeOutcome
  | noWatcher
  | timeout
  | httpResp (status : Nat) (body : String)
deriving DecidableEq, Repr

/-- The per-agent entry appended to `result['agents']`: either the probed
watcher's JSON body, or the `none_result` sentinel `\x7bagent_id: \x7b\x7d\x7d`. -/
inductive AgentInfo
  | noneResult (agent_id : String)
  | payload (body : String)
deriving DecidableEq, Repr

/-- Collaborator state a `health_check` call observes: the ids of agents in
ALIVE status (for the `with_all_agents` query), the etcd manager-nodes info
used to compute the manager id, and each agent's probe outcome. -/
structure HealthEnv where
  aliveAgents : List String
  etcdInfo : List (String × String)
  selfHealth : String
  probe : String → ProbeOutcome

/-- The manager's own entry in `result['managers']`: its id from etcd plus
the unconditional `host_health_check()` payload (kept abstract). -/
structure ManagerEntry where
  id : String
  hostHealth : String
deriving DecidableEq, Repr

/-- The JSON body of a successful `health_check`: `result['managers']` is
always present; `result['agents']` is only added when the fan-out runs, so
it is an `Option` (`none` means the key is absent from the response). -/
structure HealthResponse where
  managers : List ManagerEntry
  agents : Option (List AgentInfo)
deriving DecidableEq, Repr

/-- Externally visible I/O steps of a `health_check` call, in order: the
database query for ALIVE agents, and the spawned probe of one agent. -/
inductive HealthStep
  | dbQueryAliveAgents
  | probeAgent (agent_id : String)
deriving DecidableEq, Repr

/-- The manager-id computation shared by `fetch_manager_status` and
`health_check` (manager.py:277-281): the value under the empty key if
present, else the first key, else the empty string. -/
def managerIdFromEtcd (etcdInfo : List (String × String)) : String :=
  match etcdInfo.lookup "" with
  | some v => v
  | none =>
      match etcdInfo with
      | [] => ""
      | (k, _) :: _ => k

/-- `_agent_health_check` (manager.py:298-310): a missing watcher info
returns the `none_result` sentinel without any network call; the GET under
`with _timeout(10.0)` returns the JSON body on status 200 and the sentinel
on any other status; on deadline expiry `asyncio.TimeoutError` is raised
and nothing in the coroutine catches it. -/
def _agent_health_check (env : HealthEnv) (agent_id : String) :
    Except ManagerError AgentInfo :=
  match env.probe agent_id with
  | ProbeOutcome.noWatcher => Except.ok (AgentInfo.noneResult agent_id)
  | ProbeOutcome.timeout => Except.error ManagerError.timeoutError
  | ProbeOutcome.httpResp status body =>
      if status = 200 then
        Except.ok (AgentInfo.payload body)
      else
        Except.ok (AgentInfo.noneResult agent_id)

/-- `asyncio.gather` over the `job.wait()` calls (manager.py:317-320)
without `return_exceptions`: if every job succeeds their results are
collected in order; if any job raised, that exception is re-raised by the
gather and escapes `health_check`. -/
def gatherJobs (results : List (Except ManagerError AgentInfo)) :
    Except ManagerError (List AgentInfo) :=
  match results with
  | [] => Except.ok []
  | r :: rest =>
      match r with
      | Except.error e => Except.error e
      | Except.ok v =>
          match gatherJobs rest with
          | Except.error e => Except.error e
          | Except.ok vs => Except.ok (v :: vs)

/-- `health_check` (manager.py:240-327): rejects a request carrying both
`with_all_agents` and explicit `agent_ids` before touching the database or
the network; under `with_all_agents` the id list is a point-in-time query
for ALIVE agents; the manager entry is always built; with an empty id list
the response is returned early without an `agents` key; otherwise one probe
job per id is spawned and gathered.  Returns the ordered I/O trace and the
HTTP outcome. -/
def health_check (env : HealthEnv) (params : HealthParams) :
    List HealthStep × Except ManagerError HealthResponse :=
  if params.with_all_agents ∧ params.agent_ids ≠ [] then
    ([], Except.error ManagerError.invalidAPIParameters)
  else
    let dbTrace : List HealthStep :=
      if params.with_all_agents then [HealthStep.dbQueryAliveAgents] else []
    let agent_ids :=
      if params.with_all_agents then env.aliveAgents else params.agent_ids
    let mgr : ManagerEntry :=
      { id := managerIdFromEtcd env.etcdInfo, hostHealth := env.selfHealth }
    if agent_ids = [] then
      (dbTrace, Except.ok { managers := [mgr], agents := none })
    else
      (dbTrace ++ agent_ids.map HealthStep.probeAgent,
       match gatherJobs (agent_ids.map (_agent_health_check env)) with
       | Except.error e => Except.error e
       | Except.ok infos =>
           Except.ok { managers := [mgr], agents := some infos })

/-- Counting abstraction of the `aiojobs` scheduler used by the fan-out
(manager.py:315): `active` jobs run concurrently, `pending` jobs wait in
the internal queue.  `aiojobs.create_scheduler(limit=n)` starts a spawned
job immediately only while fewer than `n` jobs are active; later spawns are
queued, and a queued job is started only when a running job finishes. -/
structure JobScheduler where
  limit : Nat
  active : Nat
  pending : Nat
deriving DecidableEq, Repr

/-- `aiojobs.create_scheduler(limit=limit)`: no job active or pending. -/
def createScheduler (limit : Nat) : JobScheduler :=
  { limit := limit, active := 0, pending := 0 }

/-- The two scheduler transitions relevant to the in-flight bound:
`scheduler.spawn(...)` and the completion of a running job. -/
inductive SchedulerOp
  | spawnJob
  | finishJob
deriving DecidableEq, Repr

/-- One scheduler transition.  A spawn starts the job if a slot is free and
queues it otherwise; a finishing job frees its slot, which is immediately
handed to a queued job when one is waiting. -/
def JobScheduler.step (s : JobScheduler) (op : SchedulerOp) : JobScheduler :=
  match op with
  | SchedulerOp.spawnJob =>
      if s.active < s.limit then
        { s with active := s.active + 1 }
      else
        { s with pending := s.pending + 1 }
  | SchedulerOp.finishJob =>
      if s.active = 0 then
        s
      else if 0 < s.pending then
        { s with pending := s.pending - 1 }
      else
        { s with active := s.active - 1 }

/-- Run a sequence of scheduler transitions from a starting state. -/
def JobScheduler.run (s : JobScheduler) (ops : List SchedulerOp) : JobScheduler :=
  ops.foldl JobScheduler.step s

/-- The scheduler `health_check` creates for its probe fan-out
(manager.py:315): `await aiojobs.create_scheduler(limit=4)`. -/
def healthCheckScheduler : JobScheduler := createScheduler 4

/-- The entry `_agent_health_check` contributes for an agent whose probe
does not time out: the JSON body on HTTP 200, the `none_result` sentinel on
a missing watcher or any non-200 status.  (The timeout arm is a dummy; it
is only ever used under a no-timeout hypothesis.) -/
def expectedAgentInfo (env : HealthEnv) (agent_id : String) : AgentInfo :=
  match env.probe agent_id with
  | ProbeOutcome.noWatcher => AgentInfo.noneResult agent_id
  | ProbeOutcome.timeout => AgentInfo.noneResult agent_id
  | ProbeOutcome.httpResp status body =>
      if status = 200 then AgentInfo.payload body
      else AgentInfo.noneResult agent_id

/-- A two-row agents table where both agents are non-schedulable. -/
def twoAgentDb : List AgentRow :=
  [{ id := "a1", schedulable := false }, { id := "a2", schedulable := false }]

/-- A one-row agents table holding only agent `a1`. -/
def oneAgentDb : List AgentRow := [{ id := "a1", schedulable := false }]

/-- A concrete environment in which agent `a2`'s watcher probe times out
and every other agent answers HTTP 200. -/
def timeoutEnv : HealthEnv :=
  { aliveAgents := []
    etcdInfo := []
    selfHealth := "ok"
    probe := fun agent_id =>
      if agent_id = "a2" then ProbeOutcome.timeout
      else ProbeOutcome.httpResp 200 ("payload1") }

/-- A concrete environment with no ALIVE agents and one etcd node entry. -/
def noAgentEnv : HealthEnv :=
  { aliveAgents := []
    etcdInfo := [("m1", "x")]
    selfHealth := "ok"
    probe := fun _ => ProbeOutcome.noWatcher }

/-! ## Theorems -/

/-- Claim C3: for every manager status `S` and allowed-status set `A`, the
`server_status_required` gate admits the wrapped operation iff `S ∈ A`;
when it rejects, the error is `ServerFrozen` iff `S = FROZEN` (in which
case `FROZEN ∉ A`), and `ServiceUnavailable` for every other disallowed
status. -/
theorem status_gate_correct (S : ManagerStatus) (A : List ManagerStatus) :
    (server_status_required A S = GateDecision.allow ↔ S ∈ A) ∧
    (∀ e, server_status_required A S = GateDecision.reject e →
      (e = ManagerError.serverFrozen ↔ S = ManagerStatus.FROZEN)) ∧
    (server_status_required A S = GateDecision.reject ManagerError.serverFrozen →
      ManagerStatus.FROZEN ∉ A) ∧
    (S ∉ A → S ≠ ManagerStatus.FROZEN →
      server_status_required A S =
        GateDecision.reject ManagerError.serviceUnavailable) := by
  cases S with
  | RUNNING =>
      by_cases hA : ManagerStatus.RUNNING ∈ A <;>
        simp [server_status_required, hA]
  | FROZEN =>
      by_cases hA : ManagerStatus.FROZEN ∈ A <;>
        simp [server_status_required, hA]

/-- Witness for C3 at a concrete input: `RUNNING` with an empty allowed set
is rejected with the generic `ServiceUnavailable`. -/
theorem status_gate_correct_witness :
    server_status_required [] ManagerStatus.RUNNING =
      GateDecision.reject ManagerError.serviceUnavailable :=
  (status_gate_correct ManagerStatus.RUNNING []).2.2.2 (by decide) (by decide)

/-- Claim C5: a status update with `force_kill=true` performs the
kill-all-sessions side effect strictly before the status write, and every
call writes the status exactly once. -/
theorem update_status_force_kill_order (s : ManagerStatus) (fk : Bool) :
    (update_manager_status s true).1 =
      [StatusEffect.killAllSessions, StatusEffect.writeStatus s] ∧
    (update_manager_status s fk).1.filter StatusEffect.isWrite =
      [StatusEffect.writeStatus s] ∧
    (update_manager_status s fk).2 = Except.ok 204 := by
  cases fk <;> exact ⟨rfl, rfl, rfl⟩

/-- Claim C7: a health-check request carrying both `with_all_agents=true`
and a non-empty id list is rejected with `InvalidAPIParameters` and its
I/O trace is empty — no database query and no probe happens. -/
theorem health_conflicting_params_rejected (env : HealthEnv)
    (params : HealthParams) (h1 : params.with_all_agents = true)
    (h2 : params.agent_ids ≠ []) :
    health_check env params =
      ([], Except.error ManagerError.invalidAPIParameters) := by
  simp [health_check, h1, h2]

/-- Witness for C7 at a concrete input. -/
theorem health_conflicting_params_rejected_witness :
    health_check noAgentEnv { agent_ids := ["a1"], with_all_agents := true } =
      ([], Except.error ManagerError.invalidAPIParameters) :=
  health_conflicting_params_rejected noAgentEnv
    { agent_ids := ["a1"], with_all_agents := true } rfl (by decide)

/-- Claim C8: whatever events the watch stream delivered, a subscription
ending in `asyncio.CancelledError` makes `detect_status_update` return
cleanly, while any other exception terminating the subscription propagates
out of the loop. -/
theorem watch_loop_termination (events : List WatchEvent) (e : ManagerError) :
    (detect_status_update events WatchTermination.cancelled).2 =
      Except.ok () ∧
    (detect_status_update events (WatchTermination.failed e)).2 =
      Except.error e :=
  ⟨rfl, rfl⟩

/-- Claim C10: disabling the announcement deletes the stored value no
matter what message accompanies the request, so a subsequent
`get_announcement` reports `enabled=false` with an empty message. -/
theorem announcement_disable_deletes (etcd : Option String)
    (message : Option String) :
    (update_announcement etcd false message).1 = none ∧
    (update_announcement etcd false message).2 = Except.ok 204 ∧
    get_announcement (update_announcement etcd false message).1 =
      { enabled := false, message := "" } :=
  ⟨rfl, rfl, rfl⟩

/-- One scheduler transition never increases `active` beyond the limit and
never changes the limit. -/
theorem JobScheduler.step_bound (s : JobScheduler) (op : SchedulerOp)
    (h : s.active ≤ s.limit) :
    (s.step op).active ≤ s.limit ∧ (s.step op).limit = s.limit := by
  cases op <;> simp only [JobScheduler.step] <;> split <;>
    try split
  all_goals simp_all <;> omega

/-- Along any transition sequence the active-job count stays within the
limit, and the limit never changes. -/
theorem JobScheduler.run_bound (ops : List SchedulerOp) (s : JobScheduler)
    (h : s.active ≤ s.limit) :
    (s.run ops).active ≤ s.limit ∧ (s.run ops).limit = s.limit := by
  induction ops generalizing s with
  | nil => exact ⟨h, rfl⟩
  | cons op rest ih =>
      have hstep := JobScheduler.step_bound s op h
      have hrest := ih (s.step op) (hstep.2 ▸ hstep.1)
      exact ⟨hstep.2 ▸ hrest.1, (hrest.2.trans hstep.2)⟩

/-- Claim C9: in the health-check fan-out, whatever sequence of spawns and
completions occurs, at no point are more than 4 probe jobs active
simultaneously — later spawns are queued until a running job finishes. -/
theorem health_fanout_concurrency_bound (ops : List SchedulerOp) :
    (healthCheckScheduler.run ops).active ≤ 4 :=
  (JobScheduler.run_bound ops healthCheckScheduler (by decide)).1

/-- The matched rows of the UPDATE, projected to their ids: a duplicate-free
list of ids drawn from `args`. -/
theorem filter_ids_nodup (db : List AgentRow) (args : List String)
    (hdb : (db.map AgentRow.id).Nodup) :
    ((db.filter fun r => r.id ∈ args).map AgentRow.id).Nodup :=
  hdb.sublist ((List.filter_sublist db).map AgentRow.id)

/-- If some requested id has no row, the UPDATE's rowcount falls short of
the number of requested ids (primary-key ids assumed duplicate-free). -/
theorem rowcount_lt_of_missing (db : List AgentRow) (args : List String)
    (hdb : (db.map AgentRow.id).Nodup) (a : String) (ha : a ∈ args)
    (hmiss : a ∉ db.map AgentRow.id) :
    (db.filter fun r => r.id ∈ args).length < args.length := by
  have hnd : ((db.filter fun r => r.id ∈ args).map AgentRow.id).Nodup :=
    filter_ids_nodup db args hdb
  have hsub : ((db.filter fun r => r.id ∈ args).map AgentRow.id).toFinset ⊆
      args.toFinset.erase a := by
    intro x hx
    rw [List.mem_toFinset, List.mem_map] at hx
    obtain ⟨r, hr, hrx⟩ := hx
    rw [List.mem_filter] at hr
    have hxargs : x ∈ args := by
      have := hr.2
      simp only [decide_eq_true_eq] at this
      exact hrx ▸ this
    have hxdb : x ∈ db.map AgentRow.id :=
      List.mem_map.mpr ⟨r, hr.1, hrx⟩
    refine Finset.mem_erase.mpr ⟨?_, List.mem_toFinset.mpr hxargs⟩
    intro hxa
    exact hmiss (hxa ▸ hxdb)
  calc (db.filter fun r => r.id ∈ args).length
      = ((db.filter fun r => r.id ∈ args).map AgentRow.id).length :=
        (List.length_map _ _).symm
    _ = ((db.filter fun r => r.id ∈ args).map AgentRow.id).toFinset.card :=
        (List.toFinset_card_of_nodup hnd).symm
    _ ≤ (args.toFinset.erase a).card := Finset.card_le_card hsub
    _ < args.toFinset.card :=
        Finset.card_erase_lt_of_mem (List.mem_toFinset.mpr ha)
    _ ≤ args.length := List.toFinset_card_le args

/-- If every requested id has a row and the requested ids are pairwise
distinct, the UPDATE's rowcount equals the number of requested ids. -/
theorem rowcount_eq_of_all_present (db : List AgentRow) (args : List String)
    (hdb : (db.map AgentRow.id).Nodup) (hargs : args.Nodup)
    (hex : ∀ a ∈ args, a ∈ db.map AgentRow.id) :
    (db.filter fun r => r.id ∈ args).length = args.length := by
  have hnd : ((db.filter fun r => r.id ∈ args).map AgentRow.id).Nodup :=
    filter_ids_nodup db args hdb
  have hsub1 : ((db.filter fun r => r.id ∈ args).map AgentRow.id) ⊆ args := by
    intro x hx
    rw [List.mem_map] at hx
    obtain ⟨r, hr, hrx⟩ := hx
    rw [List.mem_filter] at hr
    have := hr.2
    simp only [decide_eq_true_eq] at this
    exact hrx ▸ this
  have hsub2 : args ⊆ ((db.filter fun r => r.id ∈ args).map AgentRow.id) := by
    intro a haargs
    obtain ⟨r, hr, hra⟩ := List.mem_map.mp (hex a haargs)
    refine List.mem_map.mpr ⟨r, ?_, hra⟩
    rw [List.mem_filter]
    exact ⟨hr, by simp only [decide_eq_true_eq]; exact hra ▸ haargs⟩
  have h1 : ((db.filter fun r => r.id ∈ args).map AgentRow.id).length ≤
      args.length := (hnd.subperm hsub1).length_le
  have h2 : args.length ≤
      ((db.filter fun r => r.id ∈ args).map AgentRow.id).length :=
    (hargs.subperm hsub2).length_le
  have := (List.length_map (db.filter fun r => r.id ∈ args) AgentRow.id).symm
  omega

/-- Counterexample to claim C1 as stated: for the request
`include-agents ["a1","a2","a3"]` against a table holding only `a1` and
`a2`, the call does report `InstanceNotFound`, but no partial update
survives — the raise happens inside `async with conn.begin()`, so the
transaction rolls back and both existing rows keep `schedulable = false`
instead of the updated `true`. -/
theorem scheduler_partial_update_counterexample :
    (perform_scheduler_ops twoAgentDb SchedulerOps.INCLUDE_AGENTS
        (["a1", "a2", "a3"])).response =
      Except.error ManagerError.instanceNotFound ∧
    (perform_scheduler_ops twoAgentDb SchedulerOps.INCLUDE_AGENTS
        (["a1", "a2", "a3"])).db = twoAgentDb ∧
    ¬ ((perform_scheduler_ops twoAgentDb SchedulerOps.INCLUDE_AGENTS
        (["a1", "a2", "a3"])).db.map AgentRow.schedulable = [true, true]) :=
  ⟨rfl, by decide, by decide⟩

/-- Claim C1 (amended): a scheduler-operation request whose id list contains
an id with no matching agent row fails with `InstanceNotFound`, and because
the not-found check raises inside the transaction context, the transaction
is rolled back: the rows for the ids that do exist are left unchanged and
no event is emitted. -/
theorem scheduler_missing_id_rolls_back (db : List AgentRow)
    (op : SchedulerOps) (args : List String)
    (hdb : (db.map AgentRow.id).Nodup) (a : String) (ha : a ∈ args)
    (hmiss : a ∉ db.map AgentRow.id) :
    perform_scheduler_ops db op args =
      { db := db, trace := [SchedEffect.rollback],
        response := Except.error ManagerError.instanceNotFound } := by
  have hlt := rowcount_lt_of_missing db args hdb a ha hmiss
  simp [perform_scheduler_ops, execUpdateSchedulable, hlt]

/-- Witness for the amended C1 at a concrete input. -/
theorem scheduler_missing_id_rolls_back_witness :
    perform_scheduler_ops oneAgentDb SchedulerOps.INCLUDE_AGENTS
        (["a1", "a2"]) =
      { db := oneAgentDb, trace := [SchedEffect.rollback],
        response := Except.error ManagerError.instanceNotFound } :=
  scheduler_missing_id_rolls_back oneAgentDb SchedulerOps.INCLUDE_AGENTS
    (["a1", "a2"]) (by decide) ("a2") (by decide) (by decide)

/-- An exclude-agents request never emits an event, on any table and any
id list: the error branch emits nothing and the success branch skips the
`do_schedule` production. -/
theorem exclude_agents_no_event (db : List AgentRow) (args : List String) :
    (perform_scheduler_ops db SchedulerOps.EXCLUDE_AGENTS args).events = [] := by
  by_cases h : (db.filter fun r => r.id ∈ args).length < args.length <;>
    simp [perform_scheduler_ops, execUpdateSchedulable, SchedOpOutcome.events,
      h]

/-- Counterexample to claim C6 as stated: for `include-agents ["a1","a1"]`
against a table holding `a1`, every supplied id exists, yet the matched
rowcount (1) is below the arg count (2), so the call raises
`InstanceNotFound` and emits no `do_schedule` event instead of exactly
one. -/
theorem scheduler_duplicate_ids_counterexample :
    (∀ a ∈ (["a1", "a1"] : List String), a ∈ oneAgentDb.map AgentRow.id) ∧
    (perform_scheduler_ops oneAgentDb SchedulerOps.INCLUDE_AGENTS
        (["a1", "a1"])).events = [] ∧
    (perform_scheduler_ops oneAgentDb SchedulerOps.INCLUDE_AGENTS
        (["a1", "a1"])).response = Except.error ManagerError.instanceNotFound :=
  ⟨by decide, rfl, rfl⟩

/-- Claim C6 (amended): for a scheduler-operation request whose supplied
agent ids are pairwise distinct and all exist, include-agents commits the
update and emits exactly one `do_schedule` event after the transaction,
while exclude-agents emits no event (for any request at all). -/
theorem scheduler_include_emits_one_trigger (db : List AgentRow)
    (args : List String) (hdb : (db.map AgentRow.id).Nodup)
    (hargs : args.Nodup) (hex : ∀ a ∈ args, a ∈ db.map AgentRow.id) :
    (perform_scheduler_ops db SchedulerOps.INCLUDE_AGENTS args).trace =
      [SchedEffect.commit, SchedEffect.produceEvent ("do_schedule")] ∧
    (perform_scheduler_ops db SchedulerOps.INCLUDE_AGENTS args).events =
      [("do_schedule")] ∧
    (perform_scheduler_ops db SchedulerOps.INCLUDE_AGENTS args).response =
      Except.ok 204 ∧
    ∀ db2 args2,
      (perform_scheduler_ops db2 SchedulerOps.EXCLUDE_AGENTS args2).events =
        [] := by
  have heq := rowcount_eq_of_all_present db args hdb hargs hex
  refine ⟨?_, ?_, ?_, fun db2 args2 => exclude_agents_no_event db2 args2⟩ <;>
    simp [perform_scheduler_ops, execUpdateSchedulable, SchedOpOutcome.events,
      heq]

/-- Witness for the amended C6 at a concrete input (spec Scenario B). -/
theorem scheduler_include_emits_one_trigger_witness :
    (perform_scheduler_ops twoAgentDb SchedulerOps.INCLUDE_AGENTS
        (["a1", "a2"])).events = [("do_schedule")] :=
  (scheduler_include_emits_one_trigger twoAgentDb (["a1", "a2"])
    (by decide) (by decide) (by decide)).2.1

/-- For an agent whose probe does not time out, `_agent_health_check`
succeeds and returns the expected per-agent entry. -/
theorem agent_health_check_no_timeout (env : HealthEnv) (a : String)
    (h : env.probe a ≠ ProbeOutcome.timeout) :
    _agent_health_check env a = Except.ok (expectedAgentInfo env a) := by
  unfold _agent_health_check expectedAgentInfo
  cases hp : env.probe a with
  | noWatcher => rfl
  | timeout => exact absurd hp h
  | httpResp st body => by_cases h2 : st = 200 <;> simp [h2]

/-- When no probe in the batch times out, the gather collects every
per-agent entry in order. -/
theorem gatherJobs_map_ok (env : HealthEnv) (ids : List String)
    (hnt : ∀ a ∈ ids, env.probe a ≠ ProbeOutcome.timeout) :
    gatherJobs (ids.map (_agent_health_check env)) =
      Except.ok (ids.map (expectedAgentInfo env)) := by
  induction ids with
  | nil => rfl
  | cons a rest ih =>
      have ha := agent_health_check_no_timeout env a (hnt a (by simp))
      have hr := ih (fun x hx => hnt x (by simp [hx]))
      simp [gatherJobs, ha, hr]

/-- Counterexample to claim C2 as stated: with two requested agents where
`a1` answers HTTP 200 and `a2` times out, the whole `health_check` call
fails with the uncaught `asyncio.TimeoutError` instead of succeeding with
a payload for `a1` and an empty record for `a2` — nothing in
`_agent_health_check` catches the timeout, and `job.wait()` plus
`asyncio.gather` re-raise it. -/
theorem health_timeout_propagates_counterexample :
    (health_check timeoutEnv
        { agent_ids := ["a1", "a2"], with_all_agents := false }).2 =
      Except.error ManagerError.timeoutError :=
  rfl

/-- Claim C2 (amended): a per-agent probe that returns a non-success HTTP
status (or whose watcher info cannot be resolved) yields an empty record
for that agent only and is never propagated, and when no probe in the
fan-out times out the aggregate call succeeds with the expected entry for
every agent; a probe that reaches its 10-unit deadline, however, raises
and fails the overall call. -/
theorem health_probe_failures_isolated (env : HealthEnv) (ids : List String)
    (hne : ids ≠ [])
    (hnt : ∀ a ∈ ids, env.probe a ≠ ProbeOutcome.timeout) :
    (health_check env { agent_ids := ids, with_all_agents := false }).2 =
      Except.ok
        { managers :=
            [{ id := managerIdFromEtcd env.etcdInfo,
               hostHealth := env.selfHealth }],
          agents := some (ids.map (expectedAgentInfo env)) } ∧
    (∀ a ∈ ids, ∀ st body, env.probe a = ProbeOutcome.httpResp st body →
      st ≠ 200 → expectedAgentInfo env a = AgentInfo.noneResult a) := by
  constructor
  · have hg := gatherJobs_map_ok env ids hnt
    simp [health_check, hne, hg]
  · intro a _ st body hp hst
    simp [expectedAgentInfo, hp, hst]

/-- Witness for the amended C2 at a concrete input. -/
theorem health_probe_failures_isolated_witness :
    (health_check timeoutEnv
        { agent_ids := ["a1"], with_all_agents := false }).2 =
      Except.ok
        { managers := [{ id := "", hostHealth := "ok" }],
          agents := some [AgentInfo.payload ("payload1")] } :=
  (health_probe_failures_isolated timeoutEnv (["a1"]) (by decide)
    (by decide)).1

/-- Counterexample to claim C4 as stated: with `with_all_agents=true` and
zero ALIVE agents the call does succeed, but the response carries no
`agents` key at all — `result['agents']` is only assigned after the early
return — so it does not contain an empty agents list. -/
theorem health_no_alive_agents_counterexample :
    (health_check noAgentEnv { agent_ids := [], with_all_agents := true }).2 =
      Except.ok
        { managers := [{ id := "m1", hostHealth := "ok" }],
          agents := none } ∧
    (none : Option (List AgentInfo)) ≠ some [] :=
  ⟨rfl, by decide⟩

/-- Claim C4 (amended): every health-check call with `with_all_agents=true`
when zero agents are ALIVE succeeds (never errors) and returns a response
containing the managers entry and no `agents` key (the agents list is
omitted, not empty). -/
theorem health_no_alive_agents_ok (env : HealthEnv)
    (h : env.aliveAgents = []) :
    health_check env { agent_ids := [], with_all_agents := true } =
      ([HealthStep.dbQueryAliveAgents],
       Except.ok
         { managers :=
             [{ id := managerIdFromEtcd env.etcdInfo,
                hostHealth := env.selfHealth }],
           agents := none }) := by
  simp [health_check, h]

/-- Witness for the amended C4 at a concrete input. -/
theorem health_no_alive_agents_ok_witness :
    health_check noAgentEnv { agent_ids := [], with_all_agents := true } =
      ([HealthStep.dbQueryAliveAgents],
       Except.ok
         { managers := [{ id := "m1", hostHealth := "ok" }],
           agents := none }) :=
  health_no_alive_agents_ok noAgentEnv rfl

end GatewayManager
